import Mathlib

/-!
Verification development for the Alexandria backyard-chicken map generator
(`scripts/generate-map.py`).

The script's geometric core works with planar polygon set-algebra (shapely
via geopandas): `within`, `intersects`, `difference`, `union_all`.  We embed
geometries shallowly as finite sets of points of the discrete plane
(`Finset (Int × Int)`): `difference` is set difference, `union_all` is the
fold of set union, `within` is inclusion and `intersects` is nonempty
intersection.  Every invariant claimed of the script is a statement of this
set algebra, so the discrete model captures it exactly.

The fixed-radius buffer primitive `geometry.buffer(200, cap_style="round")`
is a geometry-library primitive; it enters the script only as an opaque
geometry-to-geometry map whose outputs are later intersected and
subtracted.  We therefore pass it as an explicit function argument
`buf : Geometry → Geometry` and quantify over it.
-/

set_option autoImplicit false

/-- A planar region, modelled as a finite set of points of the discrete
plane.  Stands for a shapely (multi)polygon. -/
abbrev Geometry := Finset (Int × Int)

/-- Shapely `a.within(b)`: every point of `a` lies in `b`
(the `predicate="within"` of the dwelling-to-parcel spatial join). -/
def within (a b : Geometry) : Bool := decide (a ⊆ b)

/-- Shapely `a.intersects(b)`: `a` and `b` share at least one point
(the `predicate="intersects"` of the buffer-to-parcel and
building-to-parcel spatial joins). -/
def intersects (a b : Geometry) : Bool := decide (a ∩ b ≠ ∅)

/-- Shapely `GeoSeries.union_all()` over a list of geometries, together
with the convention that the union of no geometries is empty. -/
def union_all (gs : List Geometry) : Geometry := gs.foldl (fun a b => a ∪ b) ∅

/-- A building record after `prepare_data` merged `buildings-use.csv` into
the buildings layer: `FACILITYID`, the footprint geometry, the `USE`
column (`none` models a missing value / NaN) and the `UNITS` column
(`none` models NaN). -/
structure Building where
  facilityId : String
  geometry : Geometry
  use : Option String
  units : Option Int
deriving DecidableEq

/-- A parcel record: `OBJECTID`, the raw `ZONING` string and the parcel
geometry. -/
structure Parcel where
  objectId : Nat
  zoning : String
  geometry : Geometry
deriving DecidableEq

/-- One row of `land_use_codes.csv`: a `ZONING` code and its
`DESCRIPTION`. -/
structure LandUseRow where
  zoning : String
  description : String
deriving DecidableEq

/-- One output record of `calculate_allowed_areas`. -/
structure EligibilityResult where
  parcel_id : Nat
  geometry : Geometry
  allowed_geometry : Geometry
  prohibited_geometry : Geometry
deriving DecidableEq

/-! ### Residential-parcel classification (`identify_residential_parcels`) -/

/-- `s.str.replace(" ", "", regex=False)`: drop every space character of
the zoning code before matching (the script's `ZONING_NORMALIZED`). -/
def normalizeZoning (s : String) : String := String.mk (s.data.filter fun c => c != ' ')

/-- `needle` occurs at the head of `hay` (character list comparison). -/
def charsLeading : List Char → List Char → Bool
  | [], _ => true
  | _ :: _, [] => false
  | n :: ns, h :: hs => (n == h) && charsLeading ns hs

/-- `needle` occurs somewhere inside `hay` (character list comparison). -/
def charsInfix (needle : List Char) : List Char → Bool
  | [] => charsLeading needle []
  | h :: t => charsLeading needle (h :: t) || charsInfix needle t

/-- Pandas `str.contains(needle, case=False)` for a literal pattern:
case-insensitive substring test. -/
def strContainsCI (hay needle : String) : Bool :=
  charsInfix (needle.data.map Char.toLower) (hay.data.map Char.toLower)

/-- The left merge of the parcels with the normalized land-use table
(`parcels_normalized.merge(land_use_normalized[...], on="ZONING_NORMALIZED",
how="left")`): each parcel is paired with the `DESCRIPTION` of every
land-use row whose normalized zoning code equals the parcel's; a parcel
with no matching row is kept once with a missing description. -/
def mergeDescriptions (landUse : List LandUseRow) : List Parcel → List (Parcel × Option String)
  | [] => []
  | p :: ps =>
    let ms := landUse.filter fun r => normalizeZoning r.zoning == normalizeZoning p.zoning
    (if ms = [] then [(p, none)] else ms.map fun r => (p, some r.description))
      ++ mergeDescriptions landUse ps

/-- The `residential_mask`: pandas
`DESCRIPTION.str.contains("residential", case=False, na=False)` — a
missing description (unmatched zoning code) counts as `False`. -/
def residentialMask (d : Option String) : Bool :=
  match d with
  | none => false
  | some s => strContainsCI s "residential"

/-- `identify_residential_parcels`: merge the descriptions in, then split
the merged rows by the residential mask into
(residential, non-residential). -/
def identify_residential_parcels (parcels : List Parcel) (landUse : List LandUseRow) :
    List (Parcel × Option String) × List (Parcel × Option String) :=
  let merged := mergeDescriptions landUse parcels
  (merged.filter fun row => residentialMask row.2,
   merged.filter fun row => !residentialMask row.2)

/-! ### Dwelling classification (`identify_dwelling_buildings`) -/

/-- `buildings_gdf["USE"].isin(["Household", "Dormitory"])` for one
building; a missing `USE` value is never a member. -/
def is_dwelling (b : Building) : Bool :=
  b.use == some "Household" || b.use == some "Dormitory"

/-- `identify_dwelling_buildings`: keep exactly the household and
dormitory buildings. -/
def identify_dwelling_buildings (buildings : List Building) : List Building :=
  buildings.filter is_dwelling

/-! ### Eligibility computation (`calculate_allowed_areas`)

The script first materializes relational lookups keyed by `OBJECTID`
(spatial joins followed by `groupby`); since parcel identities are unique,
keyed lookup coincides with the per-parcel relational reading used below.
-/

/-- The dwellings matched to parcel `p` by
`gpd.sjoin(dwelling_buildings_gdf, residential_parcels_gdf, how="inner",
predicate="within")`: those whose footprint lies wholly within the
parcel. -/
def dwellingsWithin (dwellings : List Building) (p : Parcel) : List Building :=
  dwellings.filter fun d => within d.geometry p.geometry

/-- `parcel_to_dwellings[p]`: the set of `FACILITYID`s of the dwellings on
parcel `p` (`groupby("OBJECTID_right")["FACILITYID"].apply(set)`). -/
def parcelDwellingIds (dwellings : List Building) (p : Parcel) : Finset String :=
  ((dwellingsWithin dwellings p).map Building.facilityId).toFinset

/-- The pandas comparison `UNITS > 1` for one building: a missing value
(NaN) compares `False`. -/
def unitsGt1 : Option Int → Bool
  | none => false
  | some u => decide (1 < u)

/-- `check_multiunit`: a parcel's dwelling group has a multi-unit building
or a dormitory — `(group["USE"] == "Dormitory").any() or
(group["UNITS"] > 1).any()`. -/
def check_multiunit (group : List Building) : Bool :=
  (group.any fun d => d.use == some "Dormitory") || (group.any fun d => unitsGt1 d.units)

/-- `is_multiple_occupancy`: more than one distinct dwelling on the parcel,
or any multi-unit / dormitory dwelling there
(`num_dwellings_on_parcel > 1 or has_multiunit_building`; the
`parcel_to_has_multiunit.get(parcel_id, False)` default coincides with
`check_multiunit` of the empty group). -/
def is_multiple_occupancy (dwellings : List Building) (p : Parcel) : Bool :=
  decide (1 < (parcelDwellingIds dwellings p).card)
    || check_multiunit (dwellingsWithin dwellings p)

/-- `parcel_to_prohibited_buffers[p]`: among the dwelling buffers that
intersect parcel `p` (the sjoin with `predicate="intersects"`), the ones
selected for subtraction — all of them when the parcel is multiple
occupancy, otherwise only those whose `FACILITYID` is not one of the
parcel's own dwellings
(`group[~group["FACILITYID"].isin(dwellings_on_this_parcel)]`). -/
def prohibited_buffers (buf : Geometry → Geometry) (dwellings : List Building)
    (p : Parcel) : List Geometry :=
  let group := dwellings.filter fun d => intersects (buf d.geometry) p.geometry
  if !is_multiple_occupancy dwellings p then
    (group.filter fun d => !decide (d.facilityId ∈ parcelDwellingIds dwellings p)).map
      fun d => buf d.geometry
  else
    group.map fun d => buf d.geometry

/-- `parcel_to_buildings[p]`: footprints of all buildings (any use) that
intersect parcel `p` (`gpd.sjoin(all_buildings_gdf, ...,
predicate="intersects")`). -/
def buildings_on_parcel (allBuildings : List Building) (p : Parcel) : List Geometry :=
  (allBuildings.filter fun b => intersects b.geometry p.geometry).map Building.geometry

/-- The body of the per-parcel loop of `calculate_allowed_areas`: with no
dwelling on the parcel, `allowed = parcel.geometry.difference(
parcel.geometry)` (empty) and `prohibited = parcel.geometry`; otherwise
subtract the selected buffer union, then the intersecting building
footprints, and set `prohibited = parcel.geometry.difference(allowed)`. -/
def computeParcel (buf : Geometry → Geometry) (dwellings allBuildings : List Building)
    (p : Parcel) : EligibilityResult :=
  if dwellingsWithin dwellings p = [] then
    { parcel_id := p.objectId
      geometry := p.geometry
      allowed_geometry := p.geometry \ p.geometry
      prohibited_geometry := p.geometry }
  else
    let pbufs := prohibited_buffers buf dwellings p
    let allowed1 := if pbufs = [] then p.geometry else p.geometry \ union_all pbufs
    let bldgs := buildings_on_parcel allBuildings p
    let allowed2 := if bldgs = [] then allowed1 else allowed1 \ union_all bldgs
    { parcel_id := p.objectId
      geometry := p.geometry
      allowed_geometry := allowed2
      prohibited_geometry := p.geometry \ allowed2 }

/-- `calculate_allowed_areas`: one result record appended per residential
parcel, in iteration order. -/
def calculate_allowed_areas (buf : Geometry → Geometry)
    (residential_parcels : List Parcel) (dwellings allBuildings : List Building) :
    List EligibilityResult :=
  residential_parcels.map (computeParcel buf dwellings allBuildings)

/-! ### Exception behaviour of the per-parcel loop

The model above assumes every input geometry is valid, which is how the
set-algebra invariants are stated.  To settle how the script behaves on an
invalid geometry we refine it: a `RawGeometry` carries the validity flag a
shapely geometry has, and the geometry operations of the per-parcel loop
(`difference`, `union_all`) raise (`Except.error`, modelling an uncaught
GEOS `TopologyException`) when an operand is invalid.  The source contains
no `try`/`except` around the loop of `calculate_allowed_areas` and returns
only `results_gdf`, so a raised exception propagates out of the whole
call; the loop below reproduces exactly that control flow.  The selection
lookups (`parcel_to_dwellings`, `parcel_to_prohibited_buffers`,
`parcel_to_buildings`) are passed in keyed by `OBJECTID`, as the dicts are
in the source. -/

/-- A shapely geometry as the per-parcel loop receives it: a region plus
its validity flag (`is_valid`). -/
structure RawGeometry where
  carrier : Geometry
  valid : Bool
deriving DecidableEq

/-- A parcel row as the per-parcel loop reads it. -/
structure RawParcel where
  objectId : Nat
  geometry : RawGeometry
deriving DecidableEq

/-- One output record of the loop in the refined model. -/
structure RawResult where
  parcel_id : Nat
  geometry : RawGeometry
  allowed_geometry : RawGeometry
  prohibited_geometry : RawGeometry
deriving DecidableEq

/-- Shapely `a.difference(b)`: raises when an operand is invalid. -/
def rawDifference (a b : RawGeometry) : Except String RawGeometry :=
  if a.valid && b.valid then Except.ok ⟨a.carrier \ b.carrier, true⟩
  else Except.error "TopologyException: found non-noded intersection"

/-- Shapely `union_all()`: raises when any member is invalid. -/
def rawUnionAll (gs : List RawGeometry) : Except String RawGeometry :=
  if gs.all fun g => g.valid then
    Except.ok ⟨(gs.map RawGeometry.carrier).foldl (fun a b => a ∪ b) ∅, true⟩
  else Except.error "TopologyException: found non-noded intersection"

/-- The body of the per-parcel loop of `calculate_allowed_areas`, with the
exception behaviour of each geometry operation made explicit.
`hasHousehold` is `parcel_id in parcel_to_dwellings`, `pbufs` the buffers
looked up in `parcel_to_prohibited_buffers` and `bldgs` the footprints
looked up in `parcel_to_buildings`. -/
def processParcelExc (hasHousehold : Bool) (pbufs bldgs : List RawGeometry)
    (p : RawParcel) : Except String RawResult :=
  if !hasHousehold then
    match rawDifference p.geometry p.geometry with
    | Except.error e => Except.error e
    | Except.ok allowed => Except.ok ⟨p.objectId, p.geometry, allowed, p.geometry⟩
  else
    let step1 : Except String RawGeometry :=
      if pbufs = [] then Except.ok p.geometry
      else
        match rawUnionAll pbufs with
        | Except.error e => Except.error e
        | Except.ok u => rawDifference p.geometry u
    match step1 with
    | Except.error e => Except.error e
    | Except.ok allowed1 =>
      let step2 : Except String RawGeometry :=
        if bldgs = [] then Except.ok allowed1
        else
          match rawUnionAll bldgs with
          | Except.error e => Except.error e
          | Except.ok u => rawDifference allowed1 u
      match step2 with
      | Except.error e => Except.error e
      | Except.ok allowed2 =>
        match rawDifference p.geometry allowed2 with
        | Except.error e => Except.error e
        | Except.ok prohibited =>
          Except.ok ⟨p.objectId, p.geometry, allowed2, prohibited⟩

/-- The `for idx, parcel in residential_parcels_gdf.iterrows()` loop with
its `results.append(...)`: a record per parcel in order, and — the loop
sitting inside no `try` — the first raised exception aborts the whole
call, discarding every accumulated result and producing no error list. -/
def calculate_allowed_areas_exc (hasHousehold : Nat → Bool)
    (pbufs bldgs : Nat → List RawGeometry) :
    List RawParcel → Except String (List RawResult)
  | [] => Except.ok []
  | q :: qs =>
    match processParcelExc (hasHousehold q.objectId) (pbufs q.objectId)
        (bldgs q.objectId) q with
    | Except.error e => Except.error e
    | Except.ok r =>
      match calculate_allowed_areas_exc hasHousehold pbufs bldgs qs with
      | Except.error e => Except.error e
      | Except.ok rs => Except.ok (r :: rs)

/-! ### Helper lemmas -/

theorem subset_foldl_union (gs : List Geometry) (acc : Geometry) :
    acc ⊆ gs.foldl (fun a b => a ∪ b) acc := by
  induction gs generalizing acc with
  | nil => exact Finset.Subset.refl _
  | cons g gs ih => exact Finset.subset_union_left.trans (ih (acc ∪ g))

theorem mem_subset_foldl_union {g : Geometry} {gs : List Geometry} (acc : Geometry)
    (h : g ∈ gs) : g ⊆ gs.foldl (fun a b => a ∪ b) acc := by
  induction gs generalizing acc with
  | nil => cases h
  | cons a l ih =>
    rcases List.mem_cons.mp h with rfl | hl
    · exact Finset.subset_union_right.trans (subset_foldl_union l (acc ∪ g))
    · exact ih (acc ∪ a) hl

theorem mem_subset_union_all {g : Geometry} {gs : List Geometry} (h : g ∈ gs) :
    g ⊆ union_all gs :=
  mem_subset_foldl_union ∅ h

theorem unitsGt1_iff (u : Option Int) : unitsGt1 u = true ↔ 1 < u.getD 1 := by
  cases u <;> simp [unitsGt1]

theorem computeParcel_parcel_id (buf : Geometry → Geometry)
    (dw bl : List Building) (p : Parcel) :
    (computeParcel buf dw bl p).parcel_id = p.objectId := by
  by_cases h : dwellingsWithin dw p = [] <;> simp [computeParcel, h]

theorem computeParcel_geometry (buf : Geometry → Geometry)
    (dw bl : List Building) (p : Parcel) :
    (computeParcel buf dw bl p).geometry = p.geometry := by
  by_cases h : dwellingsWithin dw p = [] <;> simp [computeParcel, h]

theorem computeParcel_prohibited_eq (buf : Geometry → Geometry)
    (dw bl : List Building) (p : Parcel) :
    (computeParcel buf dw bl p).prohibited_geometry
      = p.geometry \ (computeParcel buf dw bl p).allowed_geometry := by
  by_cases h : dwellingsWithin dw p = [] <;> simp [computeParcel, h]

theorem computeParcel_allowed_subset (buf : Geometry → Geometry)
    (dw bl : List Building) (p : Parcel) :
    (computeParcel buf dw bl p).allowed_geometry ⊆ p.geometry := by
  by_cases h : dwellingsWithin dw p = []
  · simp [computeParcel, h]
  · simp only [computeParcel, h, if_neg, if_false]
    have h1 : (if prohibited_buffers buf dw p = [] then p.geometry
        else p.geometry \ union_all (prohibited_buffers buf dw p)) ⊆ p.geometry := by
      split
      · exact Finset.Subset.refl _
      · exact Finset.sdiff_subset
    split
    · exact h1
    · exact Finset.sdiff_subset.trans h1

/-! ### Sample data for concrete instantiations -/

/-- A residential parcel: three cells in a row. -/
def pW : Parcel := ⟨1, "R 8", {(0, 0), (1, 0), (2, 0)}⟩

/-- A single-unit household dwelling wholly within `pW`. -/
def dH : Building := ⟨"F1", {(0, 0)}, some "Household", some 1⟩

/-- A neighboring household dwelling straddling the boundary of `pW`:
it intersects `pW` but is not within it. -/
def eN : Building := ⟨"F2", {(2, 0), (3, 0)}, some "Household", some 1⟩

/-- A parcel hosting only a dormitory. -/
def pD : Parcel := ⟨2, "R 8", {(0, 1), (1, 1)}⟩

/-- A dormitory with recorded unit count 1, wholly within `pD`. -/
def dD : Building := ⟨"F3", {(0, 1)}, some "Dormitory", some 1⟩

/-- A residential parcel containing no dwelling. -/
def pE : Parcel := ⟨3, "R 8", {(9, 9)}⟩

/-! ### Claims -/

/-- Claim C9: a building is classified a dwelling iff its `use_type` is
exactly "Household" or "Dormitory"; a building with missing or any other
`use_type` is never a dwelling, and the classification is total. -/
theorem claim_C9 (buildings : List Building) (b : Building) :
    b ∈ identify_dwelling_buildings buildings ↔
      b ∈ buildings ∧ (b.use = some "Household" ∨ b.use = some "Dormitory") := by
  simp [identify_dwelling_buildings, List.mem_filter, is_dwelling]

/-- Instantiation of `claim_C9` at a concrete building. -/
theorem claim_C9_witness :
    dH ∈ identify_dwelling_buildings [dH] ↔
      dH ∈ [dH] ∧ (dH.use = some "Household" ∨ dH.use = some "Dormitory") :=
  claim_C9 [dH] dH

/-- Claim C8: a dwelling is assigned to a parcel exactly when its footprint
lies entirely within the parcel's geometry; a dwelling not wholly within
(e.g. straddling the boundary) appears in no such dwelling set. -/
theorem claim_C8 (dwellings : List Building) (p : Parcel) (d : Building) :
    (d ∈ dwellingsWithin dwellings p ↔ d ∈ dwellings ∧ d.geometry ⊆ p.geometry)
    ∧ (¬d.geometry ⊆ p.geometry → d ∉ dwellingsWithin dwellings p) := by
  have hmem : d ∈ dwellingsWithin dwellings p ↔ d ∈ dwellings ∧ d.geometry ⊆ p.geometry := by
    simp [dwellingsWithin, List.mem_filter, within]
  exact ⟨hmem, fun hnot hd => hnot (hmem.mp hd).2⟩

/-- Instantiation of `claim_C8` at the straddling dwelling `eN`. -/
theorem claim_C8_witness :
    (eN ∈ dwellingsWithin [dH, eN] pW ↔ eN ∈ [dH, eN] ∧ eN.geometry ⊆ pW.geometry)
    ∧ (¬eN.geometry ⊆ pW.geometry → eN ∉ dwellingsWithin [dH, eN] pW) :=
  claim_C8 [dH, eN] pW eN

/-- Claim C5: a residential parcel with no dwelling wholly within it gets
an empty allowed geometry and the full parcel geometry as prohibited,
regardless of the buffer function and of any buildings intersecting it. -/
theorem claim_C5 (buf : Geometry → Geometry) (dwellings allBuildings : List Building)
    (p : Parcel) (h : dwellingsWithin dwellings p = []) :
    (computeParcel buf dwellings allBuildings p).allowed_geometry = ∅
    ∧ (computeParcel buf dwellings allBuildings p).prohibited_geometry = p.geometry := by
  simp [computeParcel, h, Finset.sdiff_self]

/-- Instantiation of `claim_C5` at the dwelling-free parcel `pE`, with
buildings present on it. -/
theorem claim_C5_witness :
    (computeParcel (fun g => g) [dH, eN] [⟨"F9", {(9, 9)}, none, none⟩] pE).allowed_geometry = ∅
    ∧ (computeParcel (fun g => g) [dH, eN] [⟨"F9", {(9, 9)}, none, none⟩] pE).prohibited_geometry
        = pE.geometry :=
  claim_C5 (fun g => g) [dH, eN] [⟨"F9", {(9, 9)}, none, none⟩] pE (by decide)

/-- Claim C10: the eligibility calculation emits exactly one result per
residential input parcel, in input order, carrying the parcel's identifier
and full geometry unchanged, for every configuration of buffers and
buildings. -/
theorem claim_C10 (buf : Geometry → Geometry) (residential_parcels : List Parcel)
    (dwellings allBuildings : List Building) :
    (calculate_allowed_areas buf residential_parcels dwellings allBuildings).length
        = residential_parcels.length
    ∧ (calculate_allowed_areas buf residential_parcels dwellings allBuildings).map
        EligibilityResult.parcel_id = residential_parcels.map Parcel.objectId
    ∧ (calculate_allowed_areas buf residential_parcels dwellings allBuildings).map
        EligibilityResult.geometry = residential_parcels.map Parcel.geometry := by
  refine ⟨by simp [calculate_allowed_areas], ?_, ?_⟩
  · simp [calculate_allowed_areas, List.map_map, Function.comp_def, computeParcel_parcel_id]
  · simp [calculate_allowed_areas, List.map_map, Function.comp_def, computeParcel_geometry]

/-- Claim C4: for a parcel with at least one dwelling wholly within it,
`is_multiple_occupancy` holds iff there is more than one distinct dwelling
facility id on the parcel, or some dwelling there is a dormitory, or some
dwelling there has more than one recorded unit; a missing unit count is
read as one unit and never triggers the rule by itself. -/
theorem claim_C4 (dwellings : List Building) (p : Parcel)
    (_h : dwellingsWithin dwellings p ≠ []) :
    is_multiple_occupancy dwellings p = true ↔
      1 < (parcelDwellingIds dwellings p).card
      ∨ (∃ d ∈ dwellingsWithin dwellings p, d.use = some "Dormitory")
      ∨ (∃ d ∈ dwellingsWithin dwellings p, 1 < d.units.getD 1) := by
  simp [is_multiple_occupancy, check_multiunit, List.any_eq_true, unitsGt1_iff, or_assoc]

/-- Instantiation of `claim_C4` on the dormitory parcel `pD`. -/
theorem claim_C4_witness :
    is_multiple_occupancy [dD] pD = true ↔
      1 < (parcelDwellingIds [dD] pD).card
      ∨ (∃ d ∈ dwellingsWithin [dD] pD, d.use = some "Dormitory")
      ∨ (∃ d ∈ dwellingsWithin [dD] pD, 1 < d.units.getD 1) :=
  claim_C4 [dD] pD (by decide)

/-- Claim C1: every result partitions its parcel: allowed and prohibited
geometry union to the parcel geometry, intersect in the empty region, and
their areas add to the parcel's area (exactly, in the set model). -/
theorem claim_C1 (buf : Geometry → Geometry) (residential_parcels : List Parcel)
    (dwellings allBuildings : List Building) (r : EligibilityResult)
    (hr : r ∈ calculate_allowed_areas buf residential_parcels dwellings allBuildings) :
    r.allowed_geometry ∪ r.prohibited_geometry = r.geometry
    ∧ r.allowed_geometry ∩ r.prohibited_geometry = ∅
    ∧ r.allowed_geometry.card + r.prohibited_geometry.card = r.geometry.card := by
  rw [calculate_allowed_areas, List.mem_map] at hr
  obtain ⟨p, _hp, rfl⟩ := hr
  have hsub := computeParcel_allowed_subset buf dwellings allBuildings p
  rw [computeParcel_prohibited_eq, computeParcel_geometry]
  refine ⟨Finset.union_sdiff_of_subset hsub, Finset.inter_sdiff_self _ _, ?_⟩
  rw [Finset.card_sdiff hsub, Nat.add_sub_cancel' (Finset.card_le_card hsub)]

/-- Instantiation of `claim_C1` at a concrete parcel with one household
dwelling and a straddling neighbor. -/
theorem claim_C1_witness :
    (computeParcel (fun g => g) [dH, eN] [dH, eN] pW).allowed_geometry
        ∪ (computeParcel (fun g => g) [dH, eN] [dH, eN] pW).prohibited_geometry
        = (computeParcel (fun g => g) [dH, eN] [dH, eN] pW).geometry
    ∧ (computeParcel (fun g => g) [dH, eN] [dH, eN] pW).allowed_geometry
        ∩ (computeParcel (fun g => g) [dH, eN] [dH, eN] pW).prohibited_geometry = ∅
    ∧ (computeParcel (fun g => g) [dH, eN] [dH, eN] pW).allowed_geometry.card
        + (computeParcel (fun g => g) [dH, eN] [dH, eN] pW).prohibited_geometry.card
        = (computeParcel (fun g => g) [dH, eN] [dH, eN] pW).geometry.card :=
  claim_C1 (fun g => g) [pW] [dH, eN] [dH, eN]
    (computeParcel (fun g => g) [dH, eN] [dH, eN] pW) (by decide)

/-- Every buffer placed in `parcel_to_prohibited_buffers[p]` is subtracted
from the allowed geometry of `p`: the final allowed region misses it
entirely. -/
theorem computeParcel_allowed_inter_empty (buf : Geometry → Geometry)
    (dw bl : List Building) (p : Parcel) {g : Geometry}
    (hne : dwellingsWithin dw p ≠ []) (hg : g ∈ prohibited_buffers buf dw p) :
    (computeParcel buf dw bl p).allowed_geometry ∩ g = ∅ := by
  have hpb : prohibited_buffers buf dw p ≠ [] := by
    intro h0
    rw [h0] at hg
    cases hg
  have hsubU : g ⊆ union_all (prohibited_buffers buf dw p) := mem_subset_union_all hg
  have hsub : (computeParcel buf dw bl p).allowed_geometry
      ⊆ p.geometry \ union_all (prohibited_buffers buf dw p) := by
    simp only [computeParcel, if_neg hne, if_neg hpb]
    split
    · exact Finset.Subset.refl _
    · exact Finset.sdiff_subset
  rw [Finset.eq_empty_iff_forall_not_mem]
  rintro x hx
  rw [Finset.mem_inter] at hx
  have hx1 := hsub hx.1
  rw [Finset.mem_sdiff] at hx1
  exact hx1.2 (hsubU hx.2)

/-- Claim C2: on a single-occupancy parcel with its one dwelling `d`, every
buffer selected for subtraction belongs to some other dwelling, and every
other dwelling's buffer that intersects the parcel is selected and indeed
removed from the allowed region. -/
theorem claim_C2 (buf : Geometry → Geometry) (dw bl : List Building) (p : Parcel)
    (d : Building) (hone : dwellingsWithin dw p = [d])
    (hmo : is_multiple_occupancy dw p = false) :
    (∀ g ∈ prohibited_buffers buf dw p, ∃ e ∈ dw,
        g = buf e.geometry ∧ e.facilityId ≠ d.facilityId ∧
        intersects (buf e.geometry) p.geometry = true)
    ∧ (∀ e ∈ dw, intersects (buf e.geometry) p.geometry = true →
        e.facilityId ≠ d.facilityId →
        buf e.geometry ∈ prohibited_buffers buf dw p
        ∧ (computeParcel buf dw bl p).allowed_geometry ∩ buf e.geometry = ∅) := by
  have hids : parcelDwellingIds dw p = {d.facilityId} := by
    simp [parcelDwellingIds, hone]
  have hpbeq : prohibited_buffers buf dw p
      = ((dw.filter fun e => intersects (buf e.geometry) p.geometry).filter
          fun e => !decide (e.facilityId ∈ parcelDwellingIds dw p)).map
          fun e => buf e.geometry := by
    simp [prohibited_buffers, hmo]
  constructor
  · intro g hg
    rw [hpbeq] at hg
    obtain ⟨e, he, rfl⟩ := List.mem_map.mp hg
    rw [List.mem_filter] at he
    obtain ⟨he1, he2⟩ := he
    rw [List.mem_filter] at he1
    refine ⟨e, he1.1, rfl, ?_, he1.2⟩
    rw [hids] at he2
    simpa using he2
  · intro e he hint hneq
    have hmem : buf e.geometry ∈ prohibited_buffers buf dw p := by
      rw [hpbeq]
      refine List.mem_map.mpr ⟨e, ?_, rfl⟩
      rw [List.mem_filter]
      refine ⟨List.mem_filter.mpr ⟨he, hint⟩, ?_⟩
      rw [hids]
      simpa using hneq
    have hne : dwellingsWithin dw p ≠ [] := by
      rw [hone]
      exact List.cons_ne_nil d []
    exact ⟨hmem, computeParcel_allowed_inter_empty buf dw bl p hne hmem⟩

/-- Instantiation of `claim_C2` on two adjacent single-unit households:
`dH` on the parcel, `eN` the neighbor whose buffer reaches in. -/
theorem claim_C2_witness :
    (∀ g ∈ prohibited_buffers (fun g => g) [dH, eN] pW, ∃ e ∈ [dH, eN],
        g = e.geometry ∧ e.facilityId ≠ dH.facilityId ∧
        intersects e.geometry pW.geometry = true)
    ∧ (∀ e ∈ [dH, eN], intersects e.geometry pW.geometry = true →
        e.facilityId ≠ dH.facilityId →
        e.geometry ∈ prohibited_buffers (fun g => g) [dH, eN] pW
        ∧ (computeParcel (fun g => g) [dH, eN] [] pW).allowed_geometry ∩ e.geometry = ∅) :=
  claim_C2 (fun g => g) [dH, eN] [] pW dH (by decide) (by decide)

/-- A multi-occupancy parcel has at least one dwelling on it. -/
theorem mult_occ_dwellings_ne_nil (dw : List Building) (p : Parcel)
    (h : is_multiple_occupancy dw p = true) : dwellingsWithin dw p ≠ [] := by
  intro h0
  rw [is_multiple_occupancy, parcelDwellingIds, h0] at h
  simp [check_multiunit] at h

/-- Claim C3: on a multi-occupancy parcel every intersecting dwelling
buffer — the parcel's own dwellings' included — is selected and removed
from the allowed region; and a parcel whose sole dwelling is a dormitory
is multi-occupancy whatever its recorded unit count. -/
theorem claim_C3 (buf : Geometry → Geometry) (dw bl : List Building) (p : Parcel) :
    (is_multiple_occupancy dw p = true →
      ∀ e ∈ dw, intersects (buf e.geometry) p.geometry = true →
        buf e.geometry ∈ prohibited_buffers buf dw p
        ∧ (computeParcel buf dw bl p).allowed_geometry ∩ buf e.geometry = ∅)
    ∧ (∀ d, dwellingsWithin dw p = [d] → d.use = some "Dormitory" →
        is_multiple_occupancy dw p = true) := by
  constructor
  · intro hmo e he hint
    have hpbeq : prohibited_buffers buf dw p
        = (dw.filter fun x => intersects (buf x.geometry) p.geometry).map
            fun x => buf x.geometry := by
      simp [prohibited_buffers, hmo]
    have hmem : buf e.geometry ∈ prohibited_buffers buf dw p := by
      rw [hpbeq]
      exact List.mem_map.mpr ⟨e, List.mem_filter.mpr ⟨he, hint⟩, rfl⟩
    exact ⟨hmem,
      computeParcel_allowed_inter_empty buf dw bl p (mult_occ_dwellings_ne_nil dw p hmo) hmem⟩
  · intro d h1 hd
    simp [is_multiple_occupancy, check_multiunit, h1, hd]

/-- Instantiation of `claim_C3` on the dormitory parcel `pD` whose sole
dwelling `dD` records a unit count of 1. -/
theorem claim_C3_witness :
    (is_multiple_occupancy [dD] pD = true →
      ∀ e ∈ [dD], intersects e.geometry pD.geometry = true →
        e.geometry ∈ prohibited_buffers (fun g => g) [dD] pD
        ∧ (computeParcel (fun g => g) [dD] [] pD).allowed_geometry ∩ e.geometry = ∅)
    ∧ (∀ d, dwellingsWithin [dD] pD = [d] → d.use = some "Dormitory" →
        is_multiple_occupancy [dD] pD = true) :=
  claim_C3 (fun g => g) [dD] [] pD

/-- Membership of a matched row in the left merge: parcel `p` is paired
with description `s` exactly when `p` is an input parcel and some land-use
row with the same space-normalized zoning code carries description `s`. -/
theorem mem_mergeDescriptions_some (landUse : List LandUseRow) (ps : List Parcel)
    (p : Parcel) (s : String) :
    (p, some s) ∈ mergeDescriptions landUse ps ↔
      p ∈ ps ∧ ∃ r ∈ landUse,
        normalizeZoning r.zoning = normalizeZoning p.zoning ∧ r.description = s := by
  induction ps with
  | nil => simp [mergeDescriptions]
  | cons q qs ih =>
    simp only [mergeDescriptions, List.mem_append, ih]
    by_cases hq : (landUse.filter fun r => normalizeZoning r.zoning == normalizeZoning q.zoning) = []
    · rw [if_pos hq]
      have hnom : ∀ r ∈ landUse, normalizeZoning r.zoning ≠ normalizeZoning q.zoning := by
        intro r hr
        simpa using List.filter_eq_nil_iff.mp hq r hr
      constructor
      · rintro (h | ⟨hps, hE⟩)
        · exact absurd h (by simp)
        · exact ⟨List.mem_cons_of_mem q hps, hE⟩
      · rintro ⟨hmem, hE⟩
        rcases List.mem_cons.mp hmem with rfl | hmem'
        · obtain ⟨r, hr, hnorm, _⟩ := hE
          exact absurd hnorm (hnom r hr)
        · exact Or.inr ⟨hmem', hE⟩
    · rw [if_neg hq]
      constructor
      · rintro (h | ⟨hps, hE⟩)
        · obtain ⟨r, hr, heq⟩ := List.mem_map.mp h
          obtain ⟨hr1, hr2⟩ := List.mem_filter.mp hr
          rw [Prod.mk.injEq] at heq
          obtain ⟨rfl, hds⟩ := heq
          rw [Option.some.injEq] at hds
          exact ⟨List.mem_cons_self .., r, hr1, by simpa using hr2, hds⟩
        · exact ⟨List.mem_cons_of_mem q hps, hE⟩
      · rintro ⟨hmem, r, hr, hnorm, hdesc⟩
        rcases List.mem_cons.mp hmem with rfl | hmem'
        · refine Or.inl (List.mem_map.mpr ⟨r, List.mem_filter.mpr ⟨hr, by simp [hnorm]⟩, ?_⟩)
          rw [hdesc]
        · exact Or.inr ⟨hmem', r, hr, hnorm, hdesc⟩

/-- Membership of an unmatched row in the left merge: parcel `p` carries a
missing description exactly when no land-use row matches its normalized
zoning code. -/
theorem mem_mergeDescriptions_none (landUse : List LandUseRow) (ps : List Parcel)
    (p : Parcel) :
    (p, (none : Option String)) ∈ mergeDescriptions landUse ps ↔
      p ∈ ps ∧ ∀ r ∈ landUse, normalizeZoning r.zoning ≠ normalizeZoning p.zoning := by
  induction ps with
  | nil => simp [mergeDescriptions]
  | cons q qs ih =>
    simp only [mergeDescriptions, List.mem_append, ih]
    by_cases hq : (landUse.filter fun r => normalizeZoning r.zoning == normalizeZoning q.zoning) = []
    · rw [if_pos hq]
      have hnom : ∀ r ∈ landUse, normalizeZoning r.zoning ≠ normalizeZoning q.zoning := by
        intro r hr
        simpa using List.filter_eq_nil_iff.mp hq r hr
      constructor
      · rintro (h | ⟨hps, hall⟩)
        · have hpq : p = q := by simpa using h
          subst hpq
          exact ⟨List.mem_cons_self .., hnom⟩
        · exact ⟨List.mem_cons_of_mem q hps, hall⟩
      · rintro ⟨hmem, hall⟩
        rcases List.mem_cons.mp hmem with rfl | hmem'
        · exact Or.inl (by simp)
        · exact Or.inr ⟨hmem', hall⟩
    · rw [if_neg hq]
      constructor
      · rintro (h | ⟨hps, hall⟩)
        · obtain ⟨r, hr, heq⟩ := List.mem_map.mp h
          exact absurd heq (by simp)
        · exact ⟨List.mem_cons_of_mem q hps, hall⟩
      · rintro ⟨hmem, hall⟩
        rcases List.mem_cons.mp hmem with rfl | hmem'
        · obtain ⟨r, hr⟩ := List.exists_mem_of_ne_nil _ hq
          obtain ⟨hr1, hr2⟩ := List.mem_filter.mp hr
          exact absurd (by simpa using hr2) (hall r hr1)
        · exact Or.inr ⟨hmem', hall⟩

/-- Claim C6: a parcel is classified residential iff its space-normalized
zoning code matches a land-use row whose description contains
"residential" case-insensitively; a parcel with no matching row lands in
the non-residential output. -/
theorem claim_C6 (parcels : List Parcel) (landUse : List LandUseRow) (p : Parcel)
    (hp : p ∈ parcels) :
    ((∃ dsc, (p, dsc) ∈ (identify_residential_parcels parcels landUse).1) ↔
      ∃ r ∈ landUse, normalizeZoning r.zoning = normalizeZoning p.zoning ∧
        strContainsCI r.description "residential" = true)
    ∧ ((∀ r ∈ landUse, normalizeZoning r.zoning ≠ normalizeZoning p.zoning) →
        (p, none) ∈ (identify_residential_parcels parcels landUse).2) := by
  constructor
  · constructor
    · rintro ⟨dsc, hd⟩
      have hd' : (p, dsc) ∈ mergeDescriptions landUse parcels ∧ residentialMask dsc = true :=
        List.mem_filter.mp hd
      cases dsc with
      | none => exact absurd hd'.2 (by simp [residentialMask])
      | some s =>
        obtain ⟨_, r, hr, hnorm, hdesc⟩ := (mem_mergeDescriptions_some landUse parcels p s).mp hd'.1
        refine ⟨r, hr, hnorm, ?_⟩
        rw [hdesc]
        simpa [residentialMask] using hd'.2
    · rintro ⟨r, hr, hnorm, hres⟩
      refine ⟨some r.description, List.mem_filter.mpr ⟨?_, ?_⟩⟩
      · exact (mem_mergeDescriptions_some landUse parcels p r.description).mpr
          ⟨hp, r, hr, hnorm, rfl⟩
      · simpa [residentialMask] using hres
  · intro hall
    refine List.mem_filter.mpr ⟨?_, by simp [residentialMask]⟩
    exact (mem_mergeDescriptions_none landUse parcels p).mpr ⟨hp, hall⟩

/-- Instantiation of `claim_C6` on the "R 8" / "R8" spacing mismatch the
script normalizes away. -/
theorem claim_C6_witness :
    ((∃ dsc, (pW, dsc) ∈ (identify_residential_parcels [pW]
        [⟨"R8", "Single-Family Residential"⟩]).1) ↔
      ∃ r ∈ [(⟨"R8", "Single-Family Residential"⟩ : LandUseRow)],
        normalizeZoning r.zoning = normalizeZoning pW.zoning ∧
        strContainsCI r.description "residential" = true)
    ∧ ((∀ r ∈ [(⟨"R8", "Single-Family Residential"⟩ : LandUseRow)],
          normalizeZoning r.zoning ≠ normalizeZoning pW.zoning) →
        (pW, none) ∈ (identify_residential_parcels [pW]
          [⟨"R8", "Single-Family Residential"⟩]).2) :=
  claim_C6 [pW] [⟨"R8", "Single-Family Residential"⟩] pW (by decide)

/-- Every execution path of the per-parcel loop body performs at least one
`difference` with the parcel geometry as operand, so an invalid parcel
geometry always raises. -/
theorem processParcelExc_invalid (hh : Bool) (pbufs bldgs : List RawGeometry)
    (p : RawParcel) (hv : p.geometry.valid = false) :
    ∃ e, processParcelExc hh pbufs bldgs p = Except.error e := by
  cases hh with
  | false =>
    exact ⟨"TopologyException: found non-noded intersection",
      by simp [processParcelExc, rawDifference, hv]⟩
  | true =>
    by_cases h1 : pbufs = []
    · by_cases h2 : bldgs = []
      · exact ⟨"TopologyException: found non-noded intersection",
          by simp [processParcelExc, h1, h2, rawDifference, hv]⟩
      · cases hu : rawUnionAll bldgs with
        | error e => exact ⟨e, by simp [processParcelExc, h1, h2, hu]⟩
        | ok u =>
          exact ⟨"TopologyException: found non-noded intersection",
            by simp [processParcelExc, h1, h2, hu, rawDifference, hv]⟩
    · cases hu : rawUnionAll pbufs with
      | error e => exact ⟨e, by simp [processParcelExc, h1, hu]⟩
      | ok u =>
        exact ⟨"TopologyException: found non-noded intersection",
          by simp [processParcelExc, h1, hu, rawDifference, hv]⟩

/-- Claim C7 as the code actually behaves (amended): if any parcel in the
batch has an invalid geometry, the whole call to the per-parcel loop of
`calculate_allowed_areas` raises — no result list and no error list are
produced for any parcel. -/
theorem claim_C7 (hasHousehold : Nat → Bool) (pbufs bldgs : Nat → List RawGeometry)
    (parcels : List RawParcel) (p : RawParcel) (hp : p ∈ parcels)
    (hv : p.geometry.valid = false) :
    ∃ e, calculate_allowed_areas_exc hasHousehold pbufs bldgs parcels
      = Except.error e := by
  induction parcels with
  | nil => cases hp
  | cons q qs ih =>
    rcases List.mem_cons.mp hp with rfl | hq
    · obtain ⟨e, he⟩ := processParcelExc_invalid (hasHousehold p.objectId)
        (pbufs p.objectId) (bldgs p.objectId) p hv
      exact ⟨e, by simp [calculate_allowed_areas_exc, he]⟩
    · cases hq' : processParcelExc (hasHousehold q.objectId) (pbufs q.objectId)
          (bldgs q.objectId) q with
      | error e => exact ⟨e, by simp [calculate_allowed_areas_exc, hq']⟩
      | ok r =>
        obtain ⟨e, he⟩ := ih hq
        exact ⟨e, by simp [calculate_allowed_areas_exc, hq', he]⟩

/-- A batch of two parcels, the first with an invalid geometry and the
second valid: the run aborts with the raised error, producing no result
for the valid parcel and no error list — refuting per-parcel isolation and
error collection. -/
theorem claim_C7_counterexample :
    calculate_allowed_areas_exc (fun _ => false) (fun _ => []) (fun _ => [])
      [⟨1, ⟨∅, false⟩⟩, ⟨2, ⟨{(0, 0)}, true⟩⟩]
      = Except.error "TopologyException: found non-noded intersection" := rfl

/-- Instantiation of `claim_C7` at a concrete invalid parcel. -/
theorem claim_C7_witness :
    ∃ e, calculate_allowed_areas_exc (fun _ => true) (fun _ => []) (fun _ => [])
      [⟨3, ⟨∅, false⟩⟩, ⟨4, ⟨{(1, 1)}, true⟩⟩] = Except.error e :=
  claim_C7 (fun _ => true) (fun _ => []) (fun _ => [])
    [⟨3, ⟨∅, false⟩⟩, ⟨4, ⟨{(1, 1)}, true⟩⟩] ⟨3, ⟨∅, false⟩⟩ (by decide) rfl
